import Mathlib

/-!
Verification of the account-classification, aggregation and reconciliation
core of the Pure & Original financial dashboard
(`src/pure_original_dashboard.py`).

Monetary amounts are modelled as rationals (`ℚ`), dates as integers
(days), account codes and names as strings.  Each Lean definition embeds
the Python function of the same name; pandas operations (merge, filter,
groupby/agg) are modelled as explicit list operations.
-/

set_option maxRecDepth 10000

namespace PureOriginal

/-- Python `str.strip()` on the character list: drop whitespace from both
ends. -/
def stripChars (s : List Char) : List Char :=
  ((s.dropWhile Char.isWhitespace).reverse.dropWhile Char.isWhitespace).reverse

/-- The leading numeric run of an account code, after stripping
whitespace: skip characters until the first digit, then take digits until
the first non-digit.  Both `classify_dutch_account` (lines 248-256) and
`is_balance_sheet_account` (lines 327-333) inline this exact loop. -/
def leadingNumericPart (code : String) : List Char :=
  ((stripChars code.data).dropWhile (fun c => !c.isDigit)).takeWhile (fun c => c.isDigit)

/-- The digit-range cascade of `classify_dutch_account` (lines 261-321),
applied to `first_digit` and `first_two` as computed by the Python code. -/
def classifyDigits (first_digit first_two : ℕ) : String × String × Bool :=
  if first_digit = 0 then
    if first_two ≤ 3 then ("activa", "immateriele_activa", true)
    else if 4 ≤ first_two ∧ first_two ≤ 6 then ("activa", "materiele_activa", true)
    else ("activa", "financiele_activa", true)
  else if first_digit = 1 then
    if 10 ≤ first_two ∧ first_two ≤ 13 then ("activa", "vorderingen", true)
    else if 14 ≤ first_two ∧ first_two ≤ 16 then ("activa", "effecten", true)
    else ("activa", "liquide_middelen", true)
  else if first_digit = 2 then ("activa", "voorraden", true)
  else if first_digit = 3 then ("activa", "onderhanden_werk", true)
  else if first_digit = 4 then ("resultaat", "kosten", true)
  else if first_digit = 5 then
    if 50 ≤ first_two ∧ first_two ≤ 54 then ("passiva", "eigen_vermogen", false)
    else if 55 ≤ first_two ∧ first_two ≤ 56 then ("passiva", "voorzieningen", false)
    else if 57 ≤ first_two ∧ first_two ≤ 58 then ("passiva", "schulden_lang", false)
    else ("passiva", "schulden_kort", false)
  else if first_digit = 6 then ("resultaat", "kosten", true)
  else if first_digit = 7 then ("resultaat", "opbrengsten", false)
  else if first_digit = 8 then ("resultaat", "buitengewoon", true)
  else if first_digit = 9 then ("off_balance", "statistisch", true)
  else ("overig", "overig", true)

/-- `classify_dutch_account` (source lines 228-321): map an account code
to `(hoofdcategorie, subcategorie, is_debit_saldo)` by the Dutch chart of
accounts.  `first_digit = int(numeric_part[0])`,
`first_two = int(numeric_part[:2])` when at least two digits are present,
else `first_digit * 10`. -/
def classify_dutch_account (code : String) : String × String × Bool :=
  if code = "" then ("overig", "overig", true)
  else
    match leadingNumericPart code with
    | [] => ("overig", "overig", true)
    | d :: rest =>
      classifyDigits (d.toNat - 48)
        (match rest with
         | [] => (d.toNat - 48) * 10
         | d2 :: _ => (d.toNat - 48) * 10 + (d2.toNat - 48))

/-- `is_balance_sheet_account` (source lines 323-338): first digit of the
leading numeric part is in `[0, 1, 2, 3, 5]`. -/
def is_balance_sheet_account (code : String) : Bool :=
  if code = "" then false
  else
    match leadingNumericPart code with
    | [] => false
    | d :: _ => decide ((d.toNat - 48) ∈ ([0, 1, 2, 3, 5] : List ℕ))

/-- `get_account_type_category` (source lines 213-226): the static
semantic-type lookup table.  Defined in the source but called nowhere. -/
def get_account_type_category (account_type : String) : String :=
  if account_type ∈ ["asset_receivable", "asset_cash", "asset_current",
      "asset_non_current", "asset_prepayments", "asset_fixed"] then "activa"
  else if account_type ∈ ["liability_payable", "liability_credit_card",
      "liability_current", "liability_non_current"] then "passiva"
  else if account_type ∈ ["equity", "equity_unaffected"] then "eigen_vermogen"
  else if account_type ∈ ["income", "income_other"] then "opbrengsten"
  else if account_type ∈ ["expense", "expense_depreciation",
      "expense_direct_cost"] then "kosten"
  else "overig"

/-!
## Data model

`account.move.line` records and `account.account` records as consumed by
`calculate_pl`, `calculate_balance_sheet` and `render_balance_sheet`.
`posted` models the `("parent_state", "=", "posted")` domain filter.
-/

structure LedgerLine where
  account_id : Nat
  company_id : Nat
  date : Int
  debit : ℚ
  credit : ℚ
  balance : ℚ
  posted : Bool
deriving DecidableEq

structure Account where
  id : Nat
  code : String
  name : String
  account_type : String
deriving DecidableEq

/-- A row of the pandas left merge of lines with accounts on
`account_id = id`: the ledger line plus its matched account, if any. -/
structure MRow where
  line : LedgerLine
  acc : Option Account
deriving DecidableEq

/-- The `code` column of a merged row.  An unmatched row holds a pandas
`NaN`; both classifiers send it to the same fallback as `""` (no leading
digits), so the missing code is modelled as `""`. -/
def mCode (m : MRow) : String :=
  match m.acc with
  | some a => a.code
  | none => ""

/-- The `name` column of a merged row (missing modelled as `""`). -/
def mName (m : MRow) : String :=
  match m.acc with
  | some a => a.name
  | none => ""

/-- The `account_type` column of a merged row.  An unmatched row's `NaN`
fails every `.isin(...)` test, as `""` does. -/
def mType (m : MRow) : String :=
  match m.acc with
  | some a => a.account_type
  | none => ""

/-- Pandas `lines_df.merge(accounts_df, left_on='account_id',
right_on='id', how='left')`: each line is paired with every matching
account, or kept once with no account when nothing matches. -/
def mergeAccounts (lines : List LedgerLine) (accounts : List Account) : List MRow :=
  lines.flatMap (fun l =>
    match accounts.filter (fun a => a.id == l.account_id) with
    | [] => [⟨l, none⟩]
    | ms => ms.map (fun a => ⟨l, some a⟩))

/-- Sum of a numeric column over a list of rows (pandas `.sum()`). -/
def sumOf (f : α → ℚ) (xs : List α) : ℚ :=
  (xs.map f).sum

/-- Pandas `groupby(keys).agg(sum of debit, credit, balance)`: one output
row per distinct key, holding the key and the three column sums over the
rows carrying that key.  `mk` rebuilds the output row from the key and
the sums.  Used by `calculate_pl`, `calculate_balance_sheet` and the
intercompany summary. -/
def groupAgg {α K R : Type} [DecidableEq K] (key : α → K) (deb cred bal : α → ℚ)
    (mk : K → ℚ → ℚ → ℚ → R) (rows : List α) : List R :=
  ((rows.map key).dedup).map (fun k =>
    mk k (sumOf deb (rows.filter (fun x => decide (key x = k))))
      (sumOf cred (rows.filter (fun x => decide (key x = k))))
      (sumOf bal (rows.filter (fun x => decide (key x = k)))))

/-!
## Aggregation (`calculate_pl`, lines 340-360, and
`calculate_balance_sheet`, lines 401-431)

Pandas `groupby(keys).agg(sum)` is modelled as: deduplicate the list of
key tuples, and for each key sum the `debit`, `credit` and `balance`
columns over the rows carrying that key.
-/

/-- The P&L account types (source line 350). -/
def pl_types : List String :=
  ["income", "income_other", "expense", "expense_depreciation", "expense_direct_cost"]

/-- A row of the `calculate_pl` output: groupby key plus summed columns. -/
structure PLRow where
  code : String
  name : String
  account_type : String
  debit : ℚ
  credit : ℚ
  balance : ℚ
deriving DecidableEq

/-- The `calculate_pl` groupby key `(code, name, account_type)`. -/
def plKeyOf (m : MRow) : String × String × String :=
  (mCode m, mName m, mType m)

/-- `calculate_pl` (lines 340-360): empty inputs give an empty frame;
otherwise merge, filter to P&L account types, group by
`(code, name, account_type)` and sum debit/credit/balance. -/
def calculate_pl (lines : List LedgerLine) (accounts : List Account) : List PLRow :=
  if lines.isEmpty || accounts.isEmpty then []
  else
    let merged := mergeAccounts lines accounts
    let pl_lines := merged.filter (fun m => decide (mType m ∈ pl_types))
    groupAgg plKeyOf (fun m => m.line.debit) (fun m => m.line.credit)
      (fun m => m.line.balance)
      (fun k d c b => ⟨k.1, k.2.1, k.2.2, d, c, b⟩) pl_lines

/-- The `calculate_balance_sheet` groupby key
`(code, name, account_type, nl_category, nl_subcategory, nl_is_debit)`. -/
structure BSKey where
  code : String
  name : String
  account_type : String
  nl_category : String
  nl_subcategory : String
  nl_is_debit : Bool
deriving DecidableEq

/-- A row of the `calculate_balance_sheet` output. -/
structure BSRow where
  code : String
  name : String
  account_type : String
  nl_category : String
  nl_subcategory : String
  nl_is_debit : Bool
  debit : ℚ
  credit : ℚ
  balance : ℚ
deriving DecidableEq

/-- The groupby key of a merged row, with the three `nl_*` columns
derived from `classify_dutch_account` on the row's code (lines 416-419). -/
def bsKeyOf (m : MRow) : BSKey :=
  ⟨mCode m, mName m, mType m,
    (classify_dutch_account (mCode m)).1,
    (classify_dutch_account (mCode m)).2.1,
    (classify_dutch_account (mCode m)).2.2⟩

/-- `calculate_balance_sheet` (lines 401-431).  The
`is_balance_sheet_account` filter of lines 412-413 is overwritten by the
reassignment on line 422, so the effective filter is
`nl_category ∈ ['activa', 'passiva']` (the two agree; see the C10
theorem).  Group by the six-column key and sum debit/credit/balance. -/
def calculate_balance_sheet (lines : List LedgerLine) (accounts : List Account) : List BSRow :=
  if lines.isEmpty || accounts.isEmpty then []
  else
    let merged := mergeAccounts lines accounts
    let balance_lines := merged.filter
      (fun m => decide ((classify_dutch_account (mCode m)).1 ∈ (["activa", "passiva"] : List String)))
    groupAgg bsKeyOf (fun m => m.line.debit) (fun m => m.line.credit)
      (fun m => m.line.balance)
      (fun k d c b =>
        ⟨k.code, k.name, k.account_type, k.nl_category, k.nl_subcategory, k.nl_is_debit, d, c, b⟩)
      balance_lines

/-!
## Balance sheet tab (`render_balance_sheet`, lines 693-905)
-/

/-- The Odoo domain of `render_balance_sheet` (lines 697-702): optional
company filter, `date <= date_to`, posted.  There is no lower date
bound. -/
def fetchBalanceDomain (company : Option Nat) (dateTo : Int) (lines : List LedgerLine) :
    List LedgerLine :=
  lines.filter (fun l =>
    (match company with
     | none => true
     | some c => l.company_id == c) && decide (l.date ≤ dateTo) && l.posted)

/-- `result_year` (lines 730-746): from the merged (ungrouped) lines,
take the `resultaat` rows; opbrengsten are summed as credit − debit,
kosten (incl. `buitengewoon`) as debit − credit. -/
def resultYearOf (merged_all : List MRow) : ℚ :=
  let result_rows := merged_all.filter
    (fun m => (classify_dutch_account (mCode m)).1 == "resultaat")
  let opbrengsten := result_rows.filter
    (fun m => (classify_dutch_account (mCode m)).2.1 == "opbrengsten")
  let kosten := result_rows.filter
    (fun m => decide ((classify_dutch_account (mCode m)).2.1 ∈ (["kosten", "buitengewoon"] : List String)))
  (sumOf (fun m => m.line.credit) opbrengsten - sumOf (fun m => m.line.debit) opbrengsten)
    - (sumOf (fun m => m.line.debit) kosten - sumOf (fun m => m.line.credit) kosten)

/-- `total_activa` (line 750): debit − credit over the `activa` rows of
the balance summary. -/
def totalActivaOf (bs : List BSRow) : ℚ :=
  sumOf (fun r => r.debit) (bs.filter (fun r => r.nl_category == "activa"))
    - sumOf (fun r => r.credit) (bs.filter (fun r => r.nl_category == "activa"))

/-- A passiva subcategory total (lines 753-762): credit − debit over the
`passiva` rows with the given subcategory. -/
def passivaSubTotal (bs : List BSRow) (sub : String) : ℚ :=
  let rows := (bs.filter (fun r => r.nl_category == "passiva")).filter
    (fun r => r.nl_subcategory == sub)
  sumOf (fun r => r.credit) rows - sumOf (fun r => r.debit) rows

/-- `total_passiva` (line 764): the four passiva subcategory totals. -/
def totalPassivaOf (bs : List BSRow) : ℚ :=
  passivaSubTotal bs "eigen_vermogen" + passivaSubTotal bs "voorzieningen"
    + passivaSubTotal bs "schulden_lang" + passivaSubTotal bs "schulden_kort"

/-- `balance_check` (line 781): `total_activa - total_passiva -
result_year`, computed over the fetched lines. -/
def balanceCheckOf (company : Option Nat) (dateTo : Int)
    (lines : List LedgerLine) (accounts : List Account) : ℚ :=
  let fetched := fetchBalanceDomain company dateTo lines
  totalActivaOf (calculate_balance_sheet fetched accounts)
    - totalPassivaOf (calculate_balance_sheet fetched accounts)
    - resultYearOf (mergeAccounts fetched accounts)

/-- Line 782: the check reports `Sluit` (closed) iff
`abs(balance_check) < 1`. -/
def balanceStatusClosed (company : Option Nat) (dateTo : Int)
    (lines : List LedgerLine) (accounts : List Account) : Bool :=
  decide (|balanceCheckOf company dateTo lines accounts| < 1)

/-- Line 788: the diagnostic breakdown is rendered iff
`abs(balance_check) >= 1`. -/
def balanceShowsDiagnosis (company : Option Nat) (dateTo : Int)
    (lines : List LedgerLine) (accounts : List Account) : Bool :=
  decide (1 ≤ |balanceCheckOf company dateTo lines accounts|)

/-!
## Invoices: overview KPIs (`render_overview`, lines 507-542) and the
cashflow forecast (`render_cashflow`, lines 1340-1556)
-/

/-- An invoice row as used after the due-date column has been converted
by `pd.to_datetime` (see `toDatetimeColumn`): in the cashflow pipeline
the `due_date` of every open invoice is `some d`, since the conversion
raises instead of producing a missing value. -/
structure Invoice where
  move_type : String
  due_date : Option Int
  amount_total : ℚ
  amount_residual : ℚ
deriving DecidableEq

/-- `render_overview` line 529: open receivables = sum of
`amount_residual` over sales invoices and credit notes; no date field is
consulted. -/
def overviewReceivables (invs : List Invoice) : ℚ :=
  sumOf (fun i => i.amount_residual)
    (invs.filter (fun i => decide (i.move_type ∈ (["out_invoice", "out_refund"] : List String))))

/-- `render_overview` line 530: open payables, likewise date-free. -/
def overviewPayables (invs : List Invoice) : ℚ :=
  sumOf (fun i => i.amount_residual)
    (invs.filter (fun i => decide (i.move_type ∈ (["in_invoice", "in_refund"] : List String))))

/-- `render_cashflow` lines 1396-1398: classify a move type as incoming,
outgoing or other. -/
def invoiceFlowType (inv : Invoice) : String :=
  if inv.move_type == "out_invoice" then "Inkomend"
  else if inv.move_type == "in_invoice" then "Uitgaand"
  else "Overig"

/-- Line 1373: only invoices with a positive residual enter the
forecast. -/
def openInvoices (invs : List Invoice) : List Invoice :=
  invs.filter (fun i => decide (0 < i.amount_residual))

/-- Lines 1411-1425: week `i` spans `[start + 7i, start + 7i + 7)`.  The
`none` branch is the `NaT`-comparison rule (every comparison `False`),
kept for totality only: the due dates reaching this test come from
`pd.to_datetime` with its default `errors='raise'` (line 1393), which
raises on a missing or unparseable due date rather than yield `NaT`, so
the render never feeds a `none` here (see `toDatetimeColumn`). -/
def inWeek (start : Int) (i : ℕ) (inv : Invoice) : Bool :=
  match inv.due_date with
  | none => false
  | some d => decide (start + 7 * (i : Int) ≤ d) && decide (d < start + 7 * (i : Int) + 7)

/-- Line 1427: `Inkomend` residuals due in week `i`. -/
def weekIncoming (start : Int) (i : ℕ) (invs : List Invoice) : ℚ :=
  sumOf (fun inv => inv.amount_residual)
    ((openInvoices invs).filter (fun inv => invoiceFlowType inv == "Inkomend" && inWeek start i inv))

/-- Line 1428: `Uitgaand` residuals due in week `i`. -/
def weekOutgoing (start : Int) (i : ℕ) (invs : List Invoice) : ℚ :=
  sumOf (fun inv => inv.amount_residual)
    ((openInvoices invs).filter (fun inv => invoiceFlowType inv == "Uitgaand" && inWeek start i inv))

/-- Line 1436: `Netto = Inkomend - Uitgaand` for week `i`. -/
def weekNetto (start : Int) (i : ℕ) (invs : List Invoice) : ℚ :=
  weekIncoming start i invs - weekOutgoing start i invs

/-- Line 1450: `Cumulatief = Netto.cumsum() + current_balance`; entry `i`
is the sum of the first `i + 1` weekly nets plus the starting balance. -/
def cumulatief (startBalance : ℚ) (start : Int) (invs : List Invoice) (i : ℕ) : ℚ :=
  ((List.range (i + 1)).map (fun j => weekNetto start j invs)).sum + startBalance

/-- The `Cumulatief` column over `num_weeks` forecast windows. -/
def cashflowCumList (startBalance : ℚ) (start : Int) (invs : List Invoice)
    (numWeeks : ℕ) : List ℚ :=
  (List.range numWeeks).map (cumulatief startBalance start invs)

/-- The raw `invoice_date_due` field as delivered over JSON-RPC before
any conversion: a parseable date (abstracted to its day number), Odoo's
`False` for a missing due date, or an unparseable string. -/
inductive RawDue
  | date (d : Int)
  | missing
  | unparseable
deriving DecidableEq

/-- An invoice record as returned by `get_invoices`, before the due-date
column is converted. -/
structure RawInvoice where
  move_type : String
  due_date : RawDue
  amount_total : ℚ
  amount_residual : ℚ
deriving DecidableEq

/-- `pd.to_datetime` on one cell with the default `errors='raise'`: a
date value parses; Odoo's `False` (missing due date) raises `TypeError`,
an unparseable string raises `ParserError`.  `none` models the raised
exception. -/
def toDatetimeCell : RawDue → Option Int
  | RawDue.date d => some d
  | RawDue.missing => none
  | RawDue.unparseable => none

/-- Line 1393, `pd.to_datetime(open_invoices['invoice_date_due'])` over
the whole column: if any cell raises, the call raises and nothing is
converted. -/
def toDatetimeColumn : List RawInvoice → Option (List Invoice)
  | [] => some []
  | r :: rs =>
    match toDatetimeCell r.due_date, toDatetimeColumn rs with
    | some d, some rest =>
      some (⟨r.move_type, some d, r.amount_total, r.amount_residual⟩ :: rest)
    | _, _ => none

/-- Line 1373 on the raw frame: only invoices with a positive residual
enter the forecast (and hence the due-date conversion). -/
def openRawInvoices (invs : List RawInvoice) : List RawInvoice :=
  invs.filter (fun i => decide (0 < i.amount_residual))

/-- The cashflow render, lines 1373-1450: filter to open invoices, run
the due-date conversion — with `errors='raise'` a missing or unparseable
due date on any open invoice raises, killing the whole render (`none`)
before any bucketing — then build the `Cumulatief` column. -/
def renderCashflowCum (startBalance : ℚ) (start : Int) (invs : List RawInvoice)
    (numWeeks : ℕ) : Option (List ℚ) :=
  match toDatetimeColumn (openRawInvoices invs) with
  | none => none
  | some parsed => some (cashflowCumList startBalance start parsed numWeeks)

/-- `render_overview` line 529 on the raw frame: open receivables never
consult the due date, so they are computed even for records whose due
date would not convert. -/
def overviewReceivablesRaw (invs : List RawInvoice) : ℚ :=
  sumOf (fun i => i.amount_residual)
    (invs.filter (fun i => decide (i.move_type ∈ (["out_invoice", "out_refund"] : List String))))

/-- `render_overview` line 530 on the raw frame: open payables, likewise
date-free. -/
def overviewPayablesRaw (invs : List RawInvoice) : ℚ :=
  sumOf (fun i => i.amount_residual)
    (invs.filter (fun i => decide (i.move_type ∈ (["in_invoice", "in_refund"] : List String))))

/-!
## Intercompany monitor (`render_intercompany`, lines 911-990)
-/

/-- The `COMPANIES` constant (lines 64-68). -/
def COMPANIES (i : Nat) : Option String :=
  if i = 1 then some "Pure & Original B.V."
  else if i = 2 then some "Mia Colore B.V."
  else if i = 3 then some "Pure & Original International B.V."
  else none

/-- `COMPANIES.get(x, 'Onbekend')` (line 935 and elsewhere). -/
def companyNameOf (i : Nat) : String :=
  (COMPANIES i).getD "Onbekend"

/-- A move line of the intercompany tab, with the account code and name
already unpacked from the `account_id` display pair (lines 932-933). -/
structure ICLine where
  company_id : Nat
  account_code : String
  account_name : String
  debit : ℚ
  credit : ℚ
  balance : ℚ
  date : Int
  posted : Bool
deriving DecidableEq

/-- The IC domain (lines 917-920): account code like `126%`, posted,
optional company, `date <= date_to`. -/
def icFetch (company : Option Nat) (dateTo : Int) (lines : List ICLine) : List ICLine :=
  lines.filter (fun l =>
    l.account_code.startsWith "126" && l.posted &&
    (match company with
     | none => true
     | some c => l.company_id == c) && decide (l.date ≤ dateTo))

/-- A row of the IC summary groupby (lines 938-942). -/
structure ICRow where
  company_name : String
  account_code : String
  account_name : String
  debit : ℚ
  credit : ℚ
  balance : ℚ
deriving DecidableEq

/-- The IC groupby key `(company_name, account_code, account_name)`. -/
def icKeyOf (l : ICLine) : String × String × String :=
  (companyNameOf l.company_id, l.account_code, l.account_name)

/-- The IC summary: group by key, sum debit/credit/balance. -/
def icSummaryOf (lines : List ICLine) : List ICRow :=
  groupAgg icKeyOf (fun l => l.debit) (fun l => l.credit) (fun l => l.balance)
    (fun k d c b => ⟨k.1, k.2.1, k.2.2, d, c, b⟩) lines

/-- Per-entity net (lines 964-966): sum of summary balances for one
company name. -/
def icCompanyTotal (summary : List ICRow) (c : String) : ℚ :=
  sumOf (fun r => r.balance) (summary.filter (fun r => r.company_name == c))

/-- `total_all` (line 976): the three entity nets added together. -/
def icTotalAll (summary : List ICRow) : ℚ :=
  icCompanyTotal summary "Pure & Original B.V."
    + icCompanyTotal summary "Pure & Original International B.V."
    + icCompanyTotal summary "Mia Colore B.V."

/-- Lines 977-980: a warning (discrepancy) iff `abs(total_all) > 100`,
success (closed) otherwise. -/
def icStatus (summary : List ICRow) : String :=
  if 100 < |icTotalAll summary| then "discrepancy" else "closed"

/-!
## VAT risk analysis (`render_vat_analysis`, lines 996-1126)
-/

/-- Bool-valued check that `pat` starts `s`. -/
def charsStartWith : List Char → List Char → Bool
  | _, [] => true
  | [], _ :: _ => false
  | c :: cs, p :: ps => c == p && charsStartWith cs ps

/-- Bool-valued check that `pat` occurs contiguously in `s`. -/
def charsContain (pat : List Char) : List Char → Bool
  | [] => pat.isEmpty
  | c :: rest => charsStartWith (c :: rest) pat || charsContain pat rest

/-- Case-insensitive substring test, modelling
`str.contains(pattern, case=False)` for a literal pattern. -/
def containsCI (s pat : String) : Bool :=
  charsContain (pat.toLower.data) (s.toLower.data)

/-- A move line of the VAT tab, with account code and name unpacked from
the `account_id` display pair (lines 1016-1017). -/
structure VatLine where
  account_code : String
  account_name : String
  company_id : Nat
  debit : ℚ
  credit : ℚ
  balance : ℚ
  date : Int
deriving DecidableEq

/-- Lines 1089-1092: a line belongs to the Belgian-VAT risk set iff its
account name contains `Belgisch` or `België` (case-insensitive) or its
account code is exactly `152010`. -/
def matchesBelgian (l : VatLine) : Bool :=
  containsCI l.account_name "belgisch" || containsCI l.account_name "belgië"
    || l.account_code == "152010"

/-- `be_total` (line 1094): summed debit of the matched lines. -/
def belgianDebitTotal (lines : List VatLine) : ℚ :=
  sumOf (fun l => l.debit) (lines.filter matchesBelgian)

/-- `companies_with_be` (lines 1097-1098): the companies whose matched
lines carry a positive summed debit. -/
def belgianCompaniesWithBe (lines : List VatLine) : List String :=
  (((lines.filter matchesBelgian).map (fun l => companyNameOf l.company_id)).dedup).filter
    (fun c => decide (0 < sumOf (fun l => l.debit)
      ((lines.filter matchesBelgian).filter (fun l => decide (companyNameOf l.company_id = c)))))

/-- Lines 1089-1101: the Belgian-VAT warning is rendered iff the matched
set is non-empty, its summed debit is positive, and some company carries
a positive matched debit. -/
def belgianFlagFires (lines : List VatLine) : Bool :=
  if (lines.filter matchesBelgian).isEmpty then false
  else if 0 < belgianDebitTotal lines then !(belgianCompaniesWithBe lines).isEmpty
  else false

/-!
## Concrete probe data
-/

/-- C1 probe: one posted credit of 100 on income account `700000`, dated
day 5, strictly before the reporting period `[10, 20]`. -/
def c1Accounts : List Account := [⟨1, "700000", "Omzet handelsgoederen", "income"⟩]

def c1Lines : List LedgerLine := [⟨1, 1, 5, 0, 100, -100, true⟩]

/-- C2 probe: a single unbalanced posting of half a currency unit on an
asset account, giving an accounting-identity residual of `0.5`. -/
def c2Accounts : List Account := [⟨1, "000001", "Aanloopkosten", "asset_fixed"⟩]

def c2Lines : List LedgerLine := [⟨1, 1, 0, 1/2, 0, 1/2, true⟩]

/-- C3 witness probe: a balanced pair of P&L postings. -/
def c3Accounts : List Account :=
  [⟨1, "400000", "Huur", "expense"⟩, ⟨2, "700000", "Omzet", "income"⟩]

def c3Lines : List LedgerLine :=
  [⟨1, 1, 0, 100, 0, 100, true⟩, ⟨2, 1, 0, 0, 100, -100, true⟩]

/-- C5 probe: an account whose Odoo semantic type (`liability_payable`)
says passiva while its code `100000` is in the Dutch receivables range. -/
def c5Accounts : List Account := [⟨1, "100000", "Crediteuren", "liability_payable"⟩]

def c5Lines : List LedgerLine := [⟨1, 1, 0, 0, 100, -100, true⟩]

/-- The single row `calculate_balance_sheet` produces for the C5 probe. -/
def c5Row : BSRow :=
  ⟨"100000", "Crediteuren", "liability_payable", "activa", "vorderingen", true, 0, 100, -100⟩

/-- C6 probe: clearing-account balances `+500, -300, -200` across the
three entities. -/
def c6LinesClosed : List ICLine :=
  [⟨1, "126000", "RC Pure & Original International", 500, 0, 500, 0, true⟩,
   ⟨3, "126000", "RC Pure & Original B.V.", 0, 300, -300, 0, true⟩,
   ⟨2, "126100", "RC intercompany", 0, 200, -200, 0, true⟩]

/-- C6 probe: clearing-account balances `+500, -300, -50`, a residual of
150 beyond the 100-unit tolerance. -/
def c6LinesOpen : List ICLine :=
  [⟨1, "126000", "RC Pure & Original International", 500, 0, 500, 0, true⟩,
   ⟨3, "126000", "RC Pure & Original B.V.", 0, 300, -300, 0, true⟩,
   ⟨2, "126100", "RC intercompany", 0, 50, -50, 0, true⟩]

/-- C7 probe: one receivable of 500 due in window 2 (day 7) and one
payable of 200 due in window 1 (day 0), forecast starting at day 0. -/
def c7Invoices : List Invoice :=
  [⟨"out_invoice", some 7, 500, 500⟩, ⟨"in_invoice", some 0, 200, 200⟩]

/-- C8 probe: an open sales invoice of 500 whose due date is missing
(Odoo delivers `False`). -/
def c8RawMissing : RawInvoice := ⟨"out_invoice", RawDue.missing, 500, 500⟩

/-- C8 probe: the same open sales invoice with an unparseable due-date
string. -/
def c8RawUnparseable : RawInvoice := ⟨"out_invoice", RawDue.unparseable, 500, 500⟩

/-- C8 probe: the same open sales invoice with a valid due date on day
0, for contrast. -/
def c8RawDated : RawInvoice := ⟨"out_invoice", RawDue.date 0, 500, 500⟩

/-- C9 probe: a Belgian-VAT account with a nonzero (credit) balance but
zero debit. -/
def c9Line : VatLine := ⟨"152011", "Belgische BTW", 1, 0, 100, -100, 0⟩

/-- C9 probe: an input-VAT account whose name contains the substring
`BE` only via `Voorbelasting`. -/
def c9NonMatch : VatLine := ⟨"152000", "Voorbelasting hoog", 1, 1200, 0, 1200, 0⟩

/-- C4: Account classification is total and deterministic: for every code
in the ten-element probe set the classifier returns a genuine statement
section (never the `overig` fallback), and two calls on the same input
yield the same output. -/
theorem c4_classifier_total_deterministic :
    (List.all ["000001", "109999", "209999", "309999", "409999",
        "509999", "609999", "709999", "809999", "909999"]
      (fun c => decide ((classify_dutch_account c).1 ∈
        (["activa", "passiva", "resultaat", "off_balance"] : List String)))) = true ∧
    (∀ s : String, classify_dutch_account s = classify_dutch_account s) := by
  refine ⟨by decide, fun s => rfl⟩

/-!
## Helper lemmas about column sums and grouping
-/

theorem sumOf_congr {α : Type} {f g : α → ℚ} {xs : List α}
    (h : ∀ x ∈ xs, f x = g x) : sumOf f xs = sumOf g xs := by
  unfold sumOf
  rw [List.map_congr_left h]

theorem sumOf_sub_distrib {α : Type} (f g : α → ℚ) (xs : List α) :
    sumOf (fun x => f x - g x) xs = sumOf f xs - sumOf g xs := by
  induction xs with
  | nil => simp [sumOf]
  | cons x xs ih =>
    have ih' := ih
    simp only [sumOf, List.map_cons, List.sum_cons] at ih' ⊢
    rw [ih']
    ring

theorem sumOf_add_distrib {α : Type} (f g : α → ℚ) (xs : List α) :
    sumOf (fun x => f x + g x) xs = sumOf f xs + sumOf g xs := by
  induction xs with
  | nil => simp [sumOf]
  | cons x xs ih =>
    have ih' := ih
    simp only [sumOf, List.map_cons, List.sum_cons] at ih' ⊢
    rw [ih']
    ring

theorem sumOf_map {α β : Type} (f : β → ℚ) (g : α → β) (xs : List α) :
    sumOf f (xs.map g) = sumOf (fun x => f (g x)) xs := by
  simp only [sumOf, List.map_map]
  rfl

theorem sumOf_zero {α : Type} {f : α → ℚ} {xs : List α}
    (h : ∀ x ∈ xs, f x = 0) : sumOf f xs = 0 := by
  unfold sumOf
  apply List.sum_eq_zero
  intro y hy
  rw [List.mem_map] at hy
  obtain ⟨x, hx, rfl⟩ := hy
  exact h x hx

theorem sumOf_pos_exists {α : Type} {f : α → ℚ} {xs : List α}
    (h : 0 < sumOf f xs) : ∃ x, x ∈ xs ∧ 0 < f x := by
  induction xs with
  | nil => simp [sumOf] at h
  | cons x xs ih =>
    by_cases hx : 0 < f x
    · exact ⟨x, List.mem_cons_self _ _, hx⟩
    · have h2 : 0 < sumOf f xs := by
        simp only [sumOf, List.map_cons, List.sum_cons] at h
        have := not_lt.mp hx
        simp only [sumOf]
        linarith
      obtain ⟨y, hy, hfy⟩ := ih h2
      exact ⟨y, List.mem_cons_of_mem _ hy, hfy⟩

theorem sumOf_single_key {α K : Type} [DecidableEq K] (key : α → K) (val : α → ℚ)
    (x : α) {ks : List K} (hnd : ks.Nodup) (hx : key x ∈ ks) :
    sumOf (fun k => if key x = k then val x else 0) ks = val x := by
  induction ks with
  | nil => cases hx
  | cons k ks ih =>
    obtain ⟨hk, hnd'⟩ := List.nodup_cons.mp hnd
    by_cases h : key x = k
    · simp only [sumOf, List.map_cons, List.sum_cons, if_pos h]
      have hz : sumOf (fun j => if key x = j then val x else 0) ks = 0 := by
        apply sumOf_zero
        intro j hj
        have hne : key x ≠ j := by
          intro he
          apply hk
          have hkj : k = j := h.symm.trans he
          rw [hkj]
          exact hj
        simp [hne]
      simp only [sumOf] at hz
      rw [hz]
      ring
    · have hx' : key x ∈ ks := by
        rcases List.mem_cons.mp hx with h1 | h1
        · exact absurd h1 h
        · exact h1
      have := ih hnd' hx'
      simp only [sumOf, List.map_cons, List.sum_cons, if_neg h] at this ⊢
      rw [this]
      ring

theorem sumOf_partition {α K : Type} [DecidableEq K] (key : α → K) (val : α → ℚ)
    (xs : List α) {ks : List K} (hnd : ks.Nodup) (hcov : ∀ x ∈ xs, key x ∈ ks) :
    sumOf (fun k => sumOf val (xs.filter (fun x => decide (key x = k)))) ks
      = sumOf val xs := by
  induction xs with
  | nil => simp [sumOf]
  | cons x xs ih =>
    have hcov' : ∀ y ∈ xs, key y ∈ ks := fun y hy => hcov y (List.mem_cons_of_mem _ hy)
    have step : ∀ k, sumOf val ((x :: xs).filter (fun y => decide (key y = k)))
        = (if key x = k then val x else 0)
          + sumOf val (xs.filter (fun y => decide (key y = k))) := by
      intro k
      by_cases h : key x = k
      · simp [List.filter_cons, h, sumOf]
      · simp [List.filter_cons, h]
    calc sumOf (fun k => sumOf val ((x :: xs).filter (fun y => decide (key y = k)))) ks
        = sumOf (fun k => (if key x = k then val x else 0)
            + sumOf val (xs.filter (fun y => decide (key y = k)))) ks := by
          exact sumOf_congr (fun k _ => step k)
      _ = sumOf (fun k => if key x = k then val x else 0) ks
            + sumOf (fun k => sumOf val (xs.filter (fun y => decide (key y = k)))) ks :=
          sumOf_add_distrib _ _ ks
      _ = val x + sumOf val xs := by
          rw [sumOf_single_key key val x hnd (hcov x (List.mem_cons_self _ _)), ih hcov']
      _ = sumOf val (x :: xs) := by
          simp [sumOf]

theorem mem_mergeAccounts_line {m : MRow} {lines : List LedgerLine} {accounts : List Account}
    (h : m ∈ mergeAccounts lines accounts) : m.line ∈ lines := by
  unfold mergeAccounts at h
  rw [List.mem_flatMap] at h
  obtain ⟨l, hl, hm⟩ := h
  rcases hf : accounts.filter (fun a => a.id == l.account_id) with _ | ⟨a, ms⟩
  · rw [hf] at hm
    simp only [List.mem_singleton] at hm
    rw [hm]
    exact hl
  · rw [hf] at hm
    rw [List.mem_map] at hm
    obtain ⟨b, _, hb⟩ := hm
    rw [← hb]
    exact hl

theorem groupAgg_mem {α K R : Type} [DecidableEq K] {key : α → K} {deb cred bal : α → ℚ}
    {mk : K → ℚ → ℚ → ℚ → R} {rows : List α} {r : R}
    (hr : r ∈ groupAgg key deb cred bal mk rows) :
    ∃ k, k ∈ (rows.map key).dedup ∧
      r = mk k (sumOf deb (rows.filter (fun x => decide (key x = k))))
        (sumOf cred (rows.filter (fun x => decide (key x = k))))
        (sumOf bal (rows.filter (fun x => decide (key x = k)))) := by
  unfold groupAgg at hr
  rw [List.mem_map] at hr
  obtain ⟨k, hk, hkr⟩ := hr
  exact ⟨k, hk, hkr.symm⟩

theorem filtered_sum_identity {α K : Type} [DecidableEq K] (key : α → K)
    (deb cred bal : α → ℚ) {rows : List α}
    (h : ∀ x ∈ rows, bal x = deb x - cred x) (k : K) :
    sumOf bal (rows.filter (fun x => decide (key x = k)))
      = sumOf deb (rows.filter (fun x => decide (key x = k)))
        - sumOf cred (rows.filter (fun x => decide (key x = k))) := by
  have hsub : ∀ x ∈ rows.filter (fun x => decide (key x = k)), bal x = deb x - cred x :=
    fun x hx => h x (List.mem_of_mem_filter hx)
  rw [sumOf_congr hsub, sumOf_sub_distrib]

theorem groupAgg_row_identity {α K R : Type} [DecidableEq K] (key : α → K)
    (deb cred bal : α → ℚ) (mk : K → ℚ → ℚ → ℚ → R) (pd pc pb : R → ℚ)
    (hmk : ∀ k d c b, pd (mk k d c b) = d ∧ pc (mk k d c b) = c ∧ pb (mk k d c b) = b)
    {rows : List α} (h : ∀ x ∈ rows, bal x = deb x - cred x) :
    ∀ r ∈ groupAgg key deb cred bal mk rows, pb r = pd r - pc r := by
  intro r hr
  obtain ⟨k, _, rfl⟩ := groupAgg_mem hr
  rw [(hmk _ _ _ _).1, (hmk _ _ _ _).2.1, (hmk _ _ _ _).2.2]
  exact filtered_sum_identity key deb cred bal h k

theorem groupAgg_sum_identity {α K R : Type} [DecidableEq K] (key : α → K)
    (deb cred bal : α → ℚ) (mk : K → ℚ → ℚ → ℚ → R) (pd pc pb : R → ℚ)
    (hmk : ∀ k d c b, pd (mk k d c b) = d ∧ pc (mk k d c b) = c ∧ pb (mk k d c b) = b)
    {rows : List α} (h : ∀ x ∈ rows, bal x = deb x - cred x) :
    sumOf pb (groupAgg key deb cred bal mk rows)
      = sumOf pd (groupAgg key deb cred bal mk rows)
        - sumOf pc (groupAgg key deb cred bal mk rows) := by
  have hrow := groupAgg_row_identity key deb cred bal mk pd pc pb hmk h
  rw [sumOf_congr hrow, sumOf_sub_distrib]

/-- Bool-level characterisation of the first component of
`classifyDigits`: it is a balance-sheet section (`activa` or `passiva`)
exactly for first digits 0, 1, 2, 3, 5. -/
theorem classifyDigits_fst_mem (fd ft : ℕ) :
    ((classifyDigits fd ft).1 ∈ (["activa", "passiva"] : List String)) ↔
      fd ∈ ([0, 1, 2, 3, 5] : List ℕ) := by
  rcases fd with _|_|_|_|_|_|_|_|_|_|n <;>
    unfold classifyDigits <;> norm_num <;>
    first
      | decide
      | (split_ifs <;> decide)
      | (refine iff_of_false ?_ ?_
         · split_ifs <;> first | omega | decide
         · omega)

/-!
## Claim theorems
-/

/-- C1: the claim says income/expense lines feed `result_of_year` only
within `[period_start, period_end]`.  The code's balance-sheet domain has
no lower date bound: one credit of 100 on income account `700000` dated
day 5, strictly before a period starting at day 10, still yields
`result_year = 100` (the claim demands a contribution of 0). -/
theorem c1_preperiod_income_feeds_result :
    resultYearOf (mergeAccounts (fetchBalanceDomain none 20 c1Lines) c1Accounts) = 100 ∧
    List.all c1Lines (fun l => decide (l.date < 10)) = true := by
  with_unfolding_all decide

/-- C2 counterexample: one posting of half a unit leaves a residual of
`0.5 ≥ 0.01`, for which the claim demands a discrepancy report; the code
reports closed (`abs(0.5) < 1`) and shows no diagnostic. -/
theorem c2_tolerance_counterexample :
    balanceStatusClosed none 0 c2Lines c2Accounts = true ∧
    (1 : ℚ)/100 ≤ |balanceCheckOf none 0 c2Lines c2Accounts| ∧
    balanceShowsDiagnosis none 0 c2Lines c2Accounts = false := by
  with_unfolding_all decide

/-- C2 amended: the reconciliation check reports closed exactly when the
residual `total_activa - total_passiva - result_year` is within 1
currency unit of zero (strictly below 1 in absolute value), and renders
the diagnostic breakdown exactly when the absolute residual is at least
1 — the tolerance is 1 currency unit, not 0.01. -/
theorem c2_amended_tolerance_is_one :
    ∀ (company : Option Nat) (dateTo : Int) (lines : List LedgerLine)
      (accounts : List Account),
      (balanceStatusClosed company dateTo lines accounts = true ↔
        |balanceCheckOf company dateTo lines accounts| < 1) ∧
      (balanceShowsDiagnosis company dateTo lines accounts = true ↔
        1 ≤ |balanceCheckOf company dateTo lines accounts|) := by
  intro company dateTo lines accounts
  constructor
  · simp [balanceStatusClosed]
  · simp [balanceShowsDiagnosis]

/-- C6: with clearing balances `+500, -300, -200` the entity nets sum to
0 and the intercompany check closes; with `+500, -300, -50` the residual
is 150, beyond the 100-unit tolerance, and the check reports a
discrepancy. -/
theorem c6_intercompany_reconciliation :
    icTotalAll (icSummaryOf (icFetch none 0 c6LinesClosed)) = 0 ∧
    icStatus (icSummaryOf (icFetch none 0 c6LinesClosed)) = "closed" ∧
    icTotalAll (icSummaryOf (icFetch none 0 c6LinesOpen)) = 150 ∧
    icStatus (icSummaryOf (icFetch none 0 c6LinesOpen)) = "discrepancy" := by
  with_unfolding_all decide

/-- C10: the two balance-sheet membership tests agree: for every code,
`is_balance_sheet_account code` holds exactly when the first component of
`classify_dutch_account code` is `activa` or `passiva`, so the two
successive filters inside `calculate_balance_sheet` select the same
rows. -/
theorem c10_balance_membership_agree :
    (∀ code : String, is_balance_sheet_account code =
      decide ((classify_dutch_account code).1 ∈ (["activa", "passiva"] : List String))) ∧
    (∀ (lines : List LedgerLine) (accounts : List Account),
      (mergeAccounts lines accounts).filter (fun m => is_balance_sheet_account (mCode m)) =
        (mergeAccounts lines accounts).filter (fun m =>
          decide ((classify_dutch_account (mCode m)).1 ∈ (["activa", "passiva"] : List String)))) := by
  have h1 : ∀ code : String, is_balance_sheet_account code =
      decide ((classify_dutch_account code).1 ∈ (["activa", "passiva"] : List String)) := by
    intro code
    by_cases hc : code = ""
    · subst hc
      rfl
    · unfold is_balance_sheet_account classify_dutch_account
      rw [if_neg hc, if_neg hc]
      rcases hl : leadingNumericPart code with _ | ⟨d, rest⟩
      · rfl
      · exact decide_eq_decide.mpr (classifyDigits_fst_mem _ _).symm
  exact ⟨h1, fun lines accounts => List.filter_congr (fun m _ => h1 (mCode m))⟩

/-- C3: for any lines in which each line satisfies
`balance = debit - credit` (with non-negative debit and credit), both the
P&L aggregation and the balance-sheet aggregation satisfy
`sum(debit) - sum(credit) = sum(balance)`, per group row and over the
whole aggregation. -/
theorem c3_aggregation_sum_identity :
    ∀ (lines : List LedgerLine) (accounts : List Account),
      (∀ l ∈ lines, l.balance = l.debit - l.credit) →
      (∀ l ∈ lines, 0 ≤ l.debit ∧ 0 ≤ l.credit) →
      ((∀ r ∈ calculate_pl lines accounts, r.balance = r.debit - r.credit) ∧
       sumOf (fun r => r.balance) (calculate_pl lines accounts)
         = sumOf (fun r => r.debit) (calculate_pl lines accounts)
           - sumOf (fun r => r.credit) (calculate_pl lines accounts) ∧
       (∀ r ∈ calculate_balance_sheet lines accounts, r.balance = r.debit - r.credit) ∧
       sumOf (fun r => r.balance) (calculate_balance_sheet lines accounts)
         = sumOf (fun r => r.debit) (calculate_balance_sheet lines accounts)
           - sumOf (fun r => r.credit) (calculate_balance_sheet lines accounts)) := by
  intro lines accounts h _
  have hmerged : ∀ m ∈ mergeAccounts lines accounts,
      m.line.balance = m.line.debit - m.line.credit :=
    fun m hm => h m.line (mem_mergeAccounts_line hm)
  by_cases he : (lines.isEmpty || accounts.isEmpty : Bool)
  · refine ⟨?_, ?_, ?_, ?_⟩ <;>
      simp [calculate_pl, calculate_balance_sheet, he, sumOf]
  · have hpl : ∀ m ∈ (mergeAccounts lines accounts).filter
        (fun m => decide (mType m ∈ pl_types)),
        m.line.balance = m.line.debit - m.line.credit :=
      fun m hm => hmerged m (List.mem_of_mem_filter hm)
    have hbs : ∀ m ∈ (mergeAccounts lines accounts).filter
        (fun m => decide ((classify_dutch_account (mCode m)).1 ∈ (["activa", "passiva"] : List String))),
        m.line.balance = m.line.debit - m.line.credit :=
      fun m hm => hmerged m (List.mem_of_mem_filter hm)
    refine ⟨?_, ?_, ?_, ?_⟩
    · intro r hr
      unfold calculate_pl at hr
      rw [if_neg he] at hr
      exact groupAgg_row_identity plKeyOf _ _ _ _
        (fun r : PLRow => r.debit) (fun r : PLRow => r.credit) (fun r : PLRow => r.balance)
        (fun k d c b => ⟨rfl, rfl, rfl⟩) hpl r hr
    · unfold calculate_pl
      rw [if_neg he]
      exact groupAgg_sum_identity plKeyOf _ _ _ _
        (fun r : PLRow => r.debit) (fun r : PLRow => r.credit) (fun r : PLRow => r.balance)
        (fun k d c b => ⟨rfl, rfl, rfl⟩) hpl
    · intro r hr
      unfold calculate_balance_sheet at hr
      rw [if_neg he] at hr
      exact groupAgg_row_identity bsKeyOf _ _ _ _
        (fun r : BSRow => r.debit) (fun r : BSRow => r.credit) (fun r : BSRow => r.balance)
        (fun k d c b => ⟨rfl, rfl, rfl⟩) hbs r hr
    · unfold calculate_balance_sheet
      rw [if_neg he]
      exact groupAgg_sum_identity bsKeyOf _ _ _ _
        (fun r : BSRow => r.debit) (fun r : BSRow => r.credit) (fun r : BSRow => r.balance)
        (fun k d c b => ⟨rfl, rfl, rfl⟩) hbs

/-- C3 witness: the aggregation identity evaluated on a concrete
balanced pair of P&L postings. -/
theorem c3_aggregation_sum_identity_witness :
    sumOf (fun r => r.balance) (calculate_pl c3Lines c3Accounts)
      = sumOf (fun r => r.debit) (calculate_pl c3Lines c3Accounts)
        - sumOf (fun r => r.credit) (calculate_pl c3Lines c3Accounts) ∧
    sumOf (fun r => r.balance) (calculate_balance_sheet c3Lines c3Accounts)
      = sumOf (fun r => r.debit) (calculate_balance_sheet c3Lines c3Accounts)
        - sumOf (fun r => r.credit) (calculate_balance_sheet c3Lines c3Accounts) :=
  have h := c3_aggregation_sum_identity c3Lines c3Accounts
    (by with_unfolding_all decide) (by with_unfolding_all decide)
  ⟨h.2.1, h.2.2.2⟩

/-- C5 counterexample: the account-type tag `liability_payable` is mapped
to `passiva` by the static semantic lookup table, but
`calculate_balance_sheet` files the account (code `100000`) under
`activa` — the numeric-code convention, not the semantic type, decides
the section. -/
theorem c5_semantic_type_counterexample :
    get_account_type_category "liability_payable" = "passiva" ∧
    (calculate_balance_sheet c5Lines c5Accounts).map (fun r => r.nl_category) = ["activa"] := by
  with_unfolding_all decide

/-- C5 amended: the classification used by the balance-sheet computation
comes from `classify_dutch_account` on the account code alone: every
output row's section equals the numeric-code classification of its code
(and lies in `activa`/`passiva`); the semantic account-type lookup is
never consulted. -/
theorem c5_amended_code_convention_decides :
    ∀ (lines : List LedgerLine) (accounts : List Account) (r : BSRow),
      r ∈ calculate_balance_sheet lines accounts →
      r.nl_category = (classify_dutch_account r.code).1 ∧
      r.nl_category ∈ (["activa", "passiva"] : List String) := by
  intro lines accounts r hr
  unfold calculate_balance_sheet at hr
  split at hr
  · simp at hr
  · obtain ⟨k, hk, hkr⟩ := groupAgg_mem hr
    rw [List.mem_dedup, List.mem_map] at hk
    obtain ⟨m, hm, hkm⟩ := hk
    rw [List.mem_filter] at hm
    subst hkr
    subst hkm
    exact ⟨rfl, of_decide_eq_true hm.2⟩

/-- C5 amended witness: the single row produced for the
`liability_payable` account with code `100000`. -/
theorem c5_amended_code_convention_decides_witness :
    c5Row.nl_category = (classify_dutch_account c5Row.code).1 ∧
    c5Row.nl_category ∈ (["activa", "passiva"] : List String) :=
  c5_amended_code_convention_decides c5Lines c5Accounts c5Row (by with_unfolding_all decide)

/-- C7: the cashflow projection satisfies the recurrence
`net[i] = incoming[i] - outgoing[i]`,
`cumulative[0] = starting_balance + net[0]` and
`cumulative[i+1] = cumulative[i] + net[i+1]`; with starting balance 1000,
one receivable of 500 due in window 2 and one payable of 200 due in
window 1, the cumulative column is `[800, 1300, 1300, 1300, 1300]`. -/
theorem c7_cashflow_recurrence :
    (∀ (start : Int) (i : ℕ) (invs : List Invoice),
      weekNetto start i invs = weekIncoming start i invs - weekOutgoing start i invs) ∧
    (∀ (bal : ℚ) (start : Int) (invs : List Invoice),
      cumulatief bal start invs 0 = bal + weekNetto start 0 invs) ∧
    (∀ (bal : ℚ) (start : Int) (invs : List Invoice) (i : ℕ),
      cumulatief bal start invs (i + 1)
        = cumulatief bal start invs i + weekNetto start (i + 1) invs) ∧
    cashflowCumList 1000 0 c7Invoices 5 = [800, 1300, 1300, 1300, 1300] := by
  refine ⟨fun start i invs => rfl, ?_, ?_, ?_⟩
  · intro bal start invs
    simp only [cumulatief, List.range_succ, List.range_zero, List.map_nil, List.map_append,
      List.map_cons, List.sum_append, List.sum_cons, List.sum_nil, List.nil_append]
    ring
  · intro bal start invs i
    simp only [cumulatief, List.range_succ, List.map_append, List.map_cons, List.map_nil,
      List.sum_append, List.sum_cons, List.sum_nil]
    ring
  · with_unfolding_all decide

/-- C8: the claim says an open invoice with a missing or unparseable
due date is excluded from every weekly cashflow bucket while its
residual is still counted in the overview KPI totals.  The code instead
dies: `pd.to_datetime` (line 1393, default `errors='raise'`) raises on
the due date of the open invoice, so the whole cashflow render produces
no buckets at all (`none`) — the same pipeline with a valid due date
succeeds — while the overview receivables KPI, which never parses due
dates, does count the residual of 500. -/
theorem c8_missing_due_date_kills_render :
    renderCashflowCum 1000 0 [c8RawMissing] 5 = none ∧
    renderCashflowCum 1000 0 [c8RawUnparseable] 5 = none ∧
    renderCashflowCum 1000 0 [c8RawDated] 5 = some [1500, 1500, 1500, 1500, 1500] ∧
    overviewReceivablesRaw [c8RawMissing] = 500 ∧
    overviewReceivablesRaw [c8RawUnparseable] = 500 := by
  with_unfolding_all decide

/-- C9 counterexample: a VAT account matching the Belgian pattern
(`Belgische BTW`) with a nonzero balance of `-100` — all credit, no
debit — raises no flag, because the code tests the summed debit, not the
balance. -/
theorem c9_nonzero_balance_counterexample :
    matchesBelgian c9Line = true ∧ c9Line.balance ≠ 0 ∧
    belgianFlagFires [c9Line] = false := by
  with_unfolding_all decide

/-- C9 amended: the Belgian-VAT flag fires exactly when the summed debit
over lines matching the precise pattern (name containing `Belgisch` or
`België` case-insensitively, or code `152010`) is strictly positive; a
name that merely contains the substring `BE`, such as `Voorbelasting`,
does not match the pattern. -/
theorem c9_amended_flag_iff_positive_matched_debit :
    (∀ lines : List VatLine,
      belgianFlagFires lines = true ↔ 0 < belgianDebitTotal lines) ∧
    matchesBelgian c9NonMatch = false := by
  constructor
  · intro lines
    constructor
    · intro h
      by_cases hpos : 0 < belgianDebitTotal lines
      · exact hpos
      · simp [belgianFlagFires, hpos] at h
    · intro hpos
      have hne : lines.filter matchesBelgian ≠ [] := by
        intro hnil
        unfold belgianDebitTotal at hpos
        rw [hnil] at hpos
        simp [sumOf] at hpos
      have hcov : ∀ l ∈ lines.filter matchesBelgian,
          companyNameOf l.company_id ∈
            (((lines.filter matchesBelgian).map (fun l => companyNameOf l.company_id)).dedup) :=
        fun l hl => List.mem_dedup.mpr (List.mem_map_of_mem _ hl)
      have hpart := sumOf_partition (fun l => companyNameOf l.company_id)
        (fun l => l.debit) (lines.filter matchesBelgian)
        (List.nodup_dedup _) hcov
      have hpos' : 0 < sumOf (fun c => sumOf (fun l => l.debit)
          ((lines.filter matchesBelgian).filter
            (fun l => decide (companyNameOf l.company_id = c))))
          (((lines.filter matchesBelgian).map (fun l => companyNameOf l.company_id)).dedup) := by
        rw [hpart]
        exact hpos
      obtain ⟨c, hc, hcpos⟩ := sumOf_pos_exists hpos'
      have hmem : c ∈ belgianCompaniesWithBe lines :=
        List.mem_filter.mpr ⟨hc, decide_eq_true hcpos⟩
      have hfne : (belgianCompaniesWithBe lines).isEmpty = false :=
        List.isEmpty_eq_false.mpr (List.ne_nil_of_mem hmem)
      have hbvE : (lines.filter matchesBelgian).isEmpty = false :=
        List.isEmpty_eq_false.mpr hne
      unfold belgianFlagFires
      rw [hbvE, if_neg (by simp), if_pos hpos, hfne]
      rfl
  · with_unfolding_all decide

end PureOriginal
